import Mathlib

/-!
Shallow embedding of the creative-campaign generator (React + Gemini service).
Sources embedded: the shared type declarations, the application shell
(`App.tsx` state and handlers) and the provider-facing service functions
(`services/geminiService.ts`).  Asynchronous provider calls are modelled by
passing their settled outcome (`Except String α`) as an explicit argument;
React `useState` updates become explicit state passing over `AppState`.
-/

namespace Campaign

/-- From `types.ts` (`ProductAnalysis`). -/
structure ProductAnalysis where
  productName : String
  productType : String
  materials : List String
  primaryColors : List String
  targetAudience : String
deriving Repr, DecidableEq

/-- From `types.ts` (`LoadingState`): five independent busy flags. -/
structure LoadingState where
  analyzing : Bool
  generatingImage : Bool
  writingScript : Bool
  ideatingBRoll : Bool
  generatingVideo : Bool
deriving Repr, DecidableEq

/-- From `types.ts` (`CreativeAssets`): each field independently nullable. -/
structure CreativeAssets where
  originalImage : Option String
  lifestyleImage : Option String
  tiktokScript : Option String
  bRollConcepts : Option (List String)
  productVideoUrl : Option String
deriving Repr, DecidableEq

/-- The `App` component state: every `useState` hook of `App.tsx`.
Credits are an `Int` (JavaScript numbers; `Math.max(0, prev - 1)`). -/
structure AppState where
  originalImage : Option String
  analysis : Option ProductAnalysis
  toastMessage : Option String
  videoStatus : String
  credits : Int
  showUpgradeModal : Bool
  assets : CreativeAssets
  loading : LoadingState
deriving Repr, DecidableEq

/-- Initial `useState` value for `assets` in `App.tsx`. -/
def initialAssets : CreativeAssets :=
  { originalImage := none, lifestyleImage := none, tiktokScript := none,
    bRollConcepts := none, productVideoUrl := none }

/-- Initial `useState` value for `loading` in `App.tsx`. -/
def initialLoading : LoadingState :=
  { analyzing := false, generatingImage := false, writingScript := false,
    ideatingBRoll := false, generatingVideo := false }

/-- The initial state of `App`: `useState` initial values, credits start at 3. -/
def initialState : AppState :=
  { originalImage := none, analysis := none, toastMessage := none,
    videoStatus := "Initializing...", credits := 3, showUpgradeModal := false,
    assets := initialAssets, loading := initialLoading }

/-- `showToast` from `App.tsx`: `setToastMessage(msg)`. -/
def showToast (msg : String) (s : AppState) : AppState :=
  { s with toastMessage := some msg }

/-- `handleAnalysis` from `App.tsx`: sets the analyzing flag, awaits
`analyzeProductImage` (outcome passed in), on success stores the analysis,
decrements credits floored at zero and toasts; on failure only toasts;
`finally` clears the analyzing flag. -/
def handleAnalysis (outcome : Except String ProductAnalysis) (s : AppState) :
    AppState :=
  let s1 := { s with loading := { s.loading with analyzing := true } }
  let s2 := match outcome with
    | .ok r =>
        { s1 with
            analysis := some r
            credits := max 0 (s1.credits - 1)
            toastMessage := some "Analysis complete! 1 credit used." }
    | .error _ =>
        { s1 with toastMessage := some "Analysis failed. Try another image." }
  { s2 with loading := { s2.loading with analyzing := false } }

/-- `handleFileUpload` from `App.tsx`: with no credits it only opens the
upgrade modal; otherwise the chosen file is read (its data URL passed in),
stored as the original image and analysed. -/
def handleFileUpload (img : String)
    (outcome : Except String ProductAnalysis) (s : AppState) : AppState :=
  if s.credits ≤ 0 then { s with showUpgradeModal := true }
  else handleAnalysis outcome { s with originalImage := some img }

/-- `handleSampleLoad` from `App.tsx`: with no credits it only opens the
upgrade modal; otherwise it sets the analyzing flag, fetches the sample image
(`fetched = none` models the fetch throwing, caught into a toast — note the
catch branch never clears the analyzing flag), then stores and analyses it. -/
def handleSampleLoad (fetched : Option String)
    (outcome : Except String ProductAnalysis) (s : AppState) : AppState :=
  if s.credits ≤ 0 then { s with showUpgradeModal := true }
  else
    let s1 := { s with loading := { s.loading with analyzing := true } }
    match fetched with
    | none => showToast "Failed to load sample image." s1
    | some img => handleAnalysis outcome { s1 with originalImage := some img }

/-- Substring test over characters: does `needle` occur starting here? -/
def matchesAt : List Char → List Char → Bool
  | [], _ => true
  | _ :: _, [] => false
  | a :: as, b :: bs => a = b && matchesAt as bs

/-- Model of JavaScript `String.prototype.includes`. -/
def strContains (hay needle : String) : Bool :=
  (List.range (hay.data.length + 1)).any fun i =>
    matchesAt needle.data (hay.data.drop i)

/-- `onGenerateVideo` from `App.tsx`.  `hasKey` is the settled value of
`window.aistudio && await window.aistudio.hasSelectedApiKey()`; the outcome is
the settled `generateProductVideo` promise.  Returns the new state and whether
`generateProductVideo` was invoked.  (Intermediate `setVideoStatus` callback
writes during the call are modelled separately by the polling trace.) -/
def onGenerateVideo (hasKey : Bool) (outcome : Except String String)
    (s : AppState) : AppState × Bool :=
  if !hasKey then ({ s with showUpgradeModal := true }, false)
  else if s.originalImage = none ∨ s.analysis = none then (s, false)
  else
    let s1 := { s with loading := { s.loading with generatingVideo := true } }
    let s2 := match outcome with
      | .ok url =>
          { s1 with
            assets := { s1.assets with productVideoUrl := some url }
            toastMessage := some "Campaign video generated!" }
      | .error msg =>
          if strContains msg "Requested entity was not found" then
            { s1 with
                toastMessage := some "Session expired. Please re-link your key."
                showUpgradeModal := true }
          else
            { s1 with toastMessage := some "Video generation failed." }
    ({ s2 with loading := { s2.loading with generatingVideo := false } }, true)

/-- `handleUpgrade` from `App.tsx`: when `window.aistudio` exists, opens the
key selector, closes the modal, toasts and sets credits to 99. -/
def handleUpgrade (hasAistudio : Bool) (s : AppState) : AppState :=
  if hasAistudio then
    { s with
        showUpgradeModal := false
        toastMessage := some "Pro features unlocked!"
        credits := 99 }
  else s

/-- `onGenerateImage` from `App.tsx`: guarded on image and analysis; on
success stores the lifestyle image, on failure only toasts; `finally` clears
the flag. -/
def onGenerateImage (outcome : Except String String) (s : AppState) :
    AppState :=
  if s.originalImage = none ∨ s.analysis = none then s
  else
    let s1 := { s with loading := { s.loading with generatingImage := true } }
    let s2 := match outcome with
      | .ok r =>
          { s1 with
            assets := { s1.assets with lifestyleImage := some r }
            toastMessage := some "Lifestyle photo generated!" }
      | .error _ =>
          { s1 with toastMessage := some "Failed to generate image." }
    { s2 with loading := { s2.loading with generatingImage := false } }

/-- `onWriteScript` from `App.tsx`. -/
def onWriteScript (outcome : Except String String) (s : AppState) : AppState :=
  if s.analysis = none then s
  else
    let s1 := { s with loading := { s.loading with writingScript := true } }
    let s2 := match outcome with
      | .ok r =>
          { s1 with
            assets := { s1.assets with tiktokScript := some r }
            toastMessage := some "Viral script ready!" }
      | .error _ =>
          { s1 with toastMessage := some "Failed to write script." }
    { s2 with loading := { s2.loading with writingScript := false } }

/-- `onIdeateBRoll` from `App.tsx`. -/
def onIdeateBRoll (outcome : Except String (List String)) (s : AppState) :
    AppState :=
  if s.analysis = none then s
  else
    let s1 := { s with loading := { s.loading with ideatingBRoll := true } }
    let s2 := match outcome with
      | .ok r =>
          { s1 with
            assets := { s1.assets with bRollConcepts := some r }
            toastMessage := some "B-roll concepts created!" }
      | .error _ =>
          { s1 with toastMessage := some "Failed to ideate B-roll." }
    { s2 with loading := { s2.loading with ideatingBRoll := false } }

/-- `copyToClipboard` from `App.tsx` (state effect only: the toast). -/
def copyToClipboard (s : AppState) : AppState :=
  showToast "Copied to clipboard!" s

/-- The "New Campaign" button handler from `App.tsx`: clears the original
image, the analysis and all asset slots (and nothing else). -/
def handleNewCampaign (s : AppState) : AppState :=
  { s with
      originalImage := none
      analysis := none
      assets := { originalImage := none, lifestyleImage := none,
                  tiktokScript := none, bRollConcepts := none,
                  productVideoUrl := none } }

/-- Closing the toast (`onClose` of `Toast`): `setToastMessage(null)`. -/
def closeToast (s : AppState) : AppState := { s with toastMessage := none }

/-- Closing the upgrade modal (the modal's close button). -/
def closeModal (s : AppState) : AppState := { s with showUpgradeModal := false }

/-- Every user-triggered action of the application shell, with the settled
outcome of its provider call (when it makes one) as data. -/
inductive Action where
  | fileUpload (img : String) (outcome : Except String ProductAnalysis)
  | sampleLoad (fetched : Option String) (outcome : Except String ProductAnalysis)
  | analyze (outcome : Except String ProductAnalysis)
  | genVideo (hasKey : Bool) (outcome : Except String String)
  | upgrade (hasAistudio : Bool)
  | genImage (outcome : Except String String)
  | writeScript (outcome : Except String String)
  | ideateBRoll (outcome : Except String (List String))
  | copy
  | newCampaign
  | toastClose
  | modalClose

/-- One shell action applied to the state. -/
def step : Action → AppState → AppState
  | .fileUpload img outcome, s => handleFileUpload img outcome s
  | .sampleLoad fetched outcome, s => handleSampleLoad fetched outcome s
  | .analyze outcome, s => handleAnalysis outcome s
  | .genVideo hasKey outcome, s => (onGenerateVideo hasKey outcome s).1
  | .upgrade hasAistudio, s => handleUpgrade hasAistudio s
  | .genImage outcome, s => onGenerateImage outcome s
  | .writeScript outcome, s => onWriteScript outcome s
  | .ideateBRoll outcome, s => onIdeateBRoll outcome s
  | .copy, s => copyToClipboard s
  | .newCampaign, s => handleNewCampaign s
  | .toastClose, s => closeToast s
  | .modalClose, s => closeModal s

/-- States reachable from the initial state by shell actions. -/
inductive Reachable : AppState → Prop where
  | init : Reachable initialState
  | step (a : Action) {s : AppState} : Reachable s → Reachable (step a s)

/-! ### `geminiService.ts`: lifestyle image generation -/

/-- A content part of a provider response (`candidates[0].content.parts`);
`inlineData` carries the base64 payload when present. -/
structure Part where
  inlineData : Option String
deriving Repr, DecidableEq

/-- Response handling of `generateLifestyleImage` from `geminiService.ts`:
scan `response.candidates?.[0]?.content?.parts || []` in order, return a data
URL built from the first part carrying inline data, otherwise throw
`"No image generated"`. -/
def generateLifestyleImage : List Part → Except String String
  | [] => .error "No image generated"
  | p :: ps =>
    match p.inlineData with
    | some d => .ok ("data:image/png;base64," ++ d)
    | none => generateLifestyleImage ps

/-! ### `geminiService.ts`: video generation and its polling loop -/

/-- The client-visible state of the long-running video operation: the `done`
flag and `response?.generatedVideos?.[0]?.video?.uri` (`none` when any link of
that optional chain is absent). -/
structure VideoOperation where
  done : Bool
  uri : Option String
deriving Repr, DecidableEq

/-- The six rotating status messages of `generateProductVideo`. -/
def loadingMessages : List String :=
  [ "Analyzing product geometry...",
    "Simulating cinematic lighting...",
    "Extrapolating lifestyle environment...",
    "Rendering high-fidelity frames...",
    "Applying professional color grade...",
    "Finalizing export bitrate..." ]

/-- Observable effects of one polling cycle: the `onStatusUpdate` callback,
the `setTimeout` suspension, and the status re-query. -/
inductive VideoEvent where
  | statusUpdate (msg : String)
  | sleep (ms : Nat)
  | queryOperation
deriving Repr, DecidableEq

/-- The events of the polling-loop body at message index `msgIdx`:
`onStatusUpdate(loadingMessages[msgIdx % loadingMessages.length])`, then an
8000 ms suspension, then one `getVideosOperation` query. -/
def cycleEvents (msgIdx : Nat) : List VideoEvent :=
  [ .statusUpdate (loadingMessages.getD (msgIdx % loadingMessages.length) ""),
    .sleep 8000, .queryOperation ]

/-- The events of `n` consecutive polling cycles starting at message index
`m` (the message index advances by one each cycle). -/
def pollEvents (m : Nat) : Nat → List VideoEvent
  | 0 => []
  | j + 1 => cycleEvents m ++ pollEvents (m + 1) j

/-- The `while (!operation.done)` polling loop of `generateProductVideo`.
`ops k` is the operation value after `k` status queries (`ops 0` the
submission result).  The loop itself has no cap; the `fuel` argument is only
the model's recursion bound: `none` means `fuel` cycles did not suffice.  On
termination it returns the number of queries made and the emitted events. -/
def pollLoop (ops : Nat → VideoOperation) (k msgIdx fuel : Nat) :
    Option (Nat × List VideoEvent) :=
  match fuel with
  | 0 => none
  | fuel' + 1 =>
    if (ops k).done then some (k, [])
    else
      match pollLoop ops (k + 1) (msgIdx + 1) fuel' with
      | none => none
      | some (n, evs) => some (n, cycleEvents msgIdx ++ evs)

/-- The polling loop with fallible queries: `queryRes k` is the settled
result of the `(k+1)`-st `getVideosOperation` call, which may throw; a thrown
query propagates out of the loop (there is no try/catch inside
`generateProductVideo`). -/
def pollLoopE (queryRes : Nat → Except String VideoOperation)
    (op : VideoOperation) (k fuel : Nat) :
    Option (Except String VideoOperation) :=
  match fuel with
  | 0 => none
  | fuel' + 1 =>
    if op.done then some (.ok op)
    else
      match queryRes k with
      | .error e => some (.error e)
      | .ok op' => pollLoopE queryRes op' (k + 1) fuel'

/-- The tail of `generateProductVideo` after the loop: extract
`operation.response?.generatedVideos?.[0]?.video?.uri`; if falsy (absent or
the empty string) throw `"Video generation failed - no URI"`; otherwise fetch
`downloadLink&key=API_KEY` (which may throw), and return
`URL.createObjectURL` of the blob.  The second component records the URLs
fetched. -/
def finishVideo (apiKey : String) (fetchRes : String → Except String String)
    (objectURL : String → String) (op : VideoOperation) :
    Except String String × List String :=
  match op.uri with
  | none => (.error "Video generation failed - no URI", [])
  | some u =>
    if u = "" then (.error "Video generation failed - no URI", [])
    else
      let url := u ++ "&key=" ++ apiKey
      match fetchRes url with
      | .error e => (.error e, [url])
      | .ok blob => (.ok (objectURL blob), [url])

/-- `generateProductVideo` from `geminiService.ts`, end to end: the
submission (`submitRes`, the settled `generateVideos` call, may throw), the
polling loop (queries may throw), and the final fetch.  `none` = the model's
fuel ran out.  The second component records the URLs fetched. -/
def generateProductVideoRun (apiKey : String)
    (submitRes : Except String VideoOperation)
    (queryRes : Nat → Except String VideoOperation)
    (fetchRes : String → Except String String) (objectURL : String → String)
    (fuel : Nat) : Option (Except String String × List String) :=
  match submitRes with
  | .error e => some (.error e, [])
  | .ok op0 =>
    match pollLoopE queryRes op0 0 fuel with
    | none => none
    | some (.error e) => some (.error e, [])
    | some (.ok opF) => some (finishVideo apiKey fetchRes objectURL opF)

/-! ### A model of JavaScript `JSON.parse`

`analyzeProductImage` and `ideateBRoll` pass the provider's response text
through `JSON.parse` and return the result under an unchecked TypeScript
cast.  We model `JSON.parse` by an executable recursive-descent parser into a
JSON value type (numbers kept as raw text: no claim depends on numeric
semantics; a thrown `SyntaxError` becomes `.error`). -/

/-- JSON values. -/
inductive JVal where
  | null
  | bool (b : Bool)
  | num (raw : String)
  | str (s : String)
  | arr (xs : List JVal)
  | obj (fields : List (String × JVal))
deriving Repr

def chQuote : Char := Char.ofNat 34

def chBackslash : Char := Char.ofNat 92

def chLBrace : Char := Char.ofNat 123

def chRBrace : Char := Char.ofNat 125

/-- JSON whitespace. -/
def isWs (c : Char) : Bool := c = ' ' || c = '\t' || c = '\n' || c = '\r'

def skipWs : List Char → List Char
  | c :: cs => if isWs c then skipWs cs else c :: cs
  | [] => []

def hexVal (c : Char) : Option Nat :=
  if '0' ≤ c ∧ c ≤ '9' then some (c.toNat - 48)
  else if 'a' ≤ c ∧ c ≤ 'f' then some (c.toNat - 87)
  else if 'A' ≤ c ∧ c ≤ 'F' then some (c.toNat - 55)
  else none

/-- Single-character escape sequences of JSON strings. -/
def escChar (c : Char) : Option Char :=
  if c = chQuote then some chQuote
  else if c = chBackslash then some chBackslash
  else if c = '/' then some '/'
  else if c = 'b' then some (Char.ofNat 8)
  else if c = 'f' then some (Char.ofNat 12)
  else if c = 'n' then some (Char.ofNat 10)
  else if c = 'r' then some (Char.ofNat 13)
  else if c = 't' then some (Char.ofNat 9)
  else none

/-- Parse the body of a JSON string literal after its opening quote; returns
the decoded characters and the input after the closing quote. -/
def parseStrBody : List Char → Option (List Char × List Char)
  | [] => none
  | c :: cs =>
    if c = chQuote then some ([], cs)
    else if c = chBackslash then
      match cs with
      | [] => none
      | e :: cs' =>
        if e = 'u' then
          match cs' with
          | a :: b :: c2 :: d :: rest =>
            match hexVal a, hexVal b, hexVal c2, hexVal d with
            | some ha, some hb, some hc, some hd =>
              match parseStrBody rest with
              | some (out, rem) =>
                  some (Char.ofNat (((ha * 16 + hb) * 16 + hc) * 16 + hd) :: out, rem)
              | none => none
            | _, _, _, _ => none
          | _ => none
        else
          match escChar e with
          | some ce =>
            match parseStrBody cs' with
            | some (out, rem) => some (ce :: out, rem)
            | none => none
          | none => none
    else
      match parseStrBody cs with
      | some (out, rem) => some (c :: out, rem)
      | none => none

/-- Characters that may appear in a JSON number token. -/
def isNumChar (c : Char) : Bool :=
  c.isDigit || c = '-' || c = '+' || c = '.' || c = 'e' || c = 'E'

mutual

/-- Parse one JSON value.  `fuel` bounds the recursion depth of the model
(always sufficient when larger than twice the input length). -/
def parseVal (fuel : Nat) (cs : List Char) : Option (JVal × List Char) :=
  match fuel with
  | 0 => none
  | f + 1 =>
    match skipWs cs with
    | [] => none
    | c :: rest =>
      if c = chQuote then
        match parseStrBody rest with
        | some (out, rem) => some (.str (String.mk out), rem)
        | none => none
      else if c = chLBrace then
        match skipWs rest with
        | c2 :: rest2 =>
          if c2 = chRBrace then some (.obj [], rest2)
          else
            match parseFields f (c2 :: rest2) with
            | some (fs, rem) => some (.obj fs, rem)
            | none => none
        | [] => none
      else if c = '[' then
        match skipWs rest with
        | c2 :: rest2 =>
          if c2 = ']' then some (.arr [], rest2)
          else
            match parseElems f (c2 :: rest2) with
            | some (xs, rem) => some (.arr xs, rem)
            | none => none
        | [] => none
      else if c = 't' then
        match rest with
        | 'r' :: 'u' :: 'e' :: rem => some (.bool true, rem)
        | _ => none
      else if c = 'f' then
        match rest with
        | 'a' :: 'l' :: 's' :: 'e' :: rem => some (.bool false, rem)
        | _ => none
      else if c = 'n' then
        match rest with
        | 'u' :: 'l' :: 'l' :: rem => some (.null, rem)
        | _ => none
      else if c.isDigit || c = '-' then
        some (.num (String.mk ((c :: rest).takeWhile isNumChar)),
              (c :: rest).dropWhile isNumChar)
      else none

/-- Parse the elements of a non-empty JSON array (after `[`). -/
def parseElems (fuel : Nat) (cs : List Char) :
    Option (List JVal × List Char) :=
  match fuel with
  | 0 => none
  | f + 1 =>
    match parseVal f cs with
    | none => none
    | some (v, rem) =>
      match skipWs rem with
      | c :: rem2 =>
        if c = ',' then
          match parseElems f rem2 with
          | some (xs, rem3) => some (v :: xs, rem3)
          | none => none
        else if c = ']' then some ([v], rem2)
        else none
      | [] => none

/-- Parse the fields of a non-empty JSON object (after the brace). -/
def parseFields (fuel : Nat) (cs : List Char) :
    Option (List (String × JVal) × List Char) :=
  match fuel with
  | 0 => none
  | f + 1 =>
    match skipWs cs with
    | c :: rest =>
      if c = chQuote then
        match parseStrBody rest with
        | some (key, rem) =>
          match skipWs rem with
          | c2 :: rem2 =>
            if c2 = ':' then
              match parseVal f rem2 with
              | some (v, rem3) =>
                match skipWs rem3 with
                | c3 :: rem4 =>
                  if c3 = ',' then
                    match parseFields f rem4 with
                    | some (fs, rem5) => some ((String.mk key, v) :: fs, rem5)
                    | none => none
                  else if c3 = chRBrace then some ([(String.mk key, v)], rem4)
                  else none
                | [] => none
              | none => none
            else none
          | [] => none
        | none => none
      else none
    | [] => none

end

/-- Model of JavaScript `JSON.parse`: parse one value and require only
whitespace after it; `.error` models the thrown `SyntaxError`. -/
def jsonParse (s : String) : Except String JVal :=
  match parseVal (2 * s.length + 2) s.data with
  | some (v, rem) =>
      if skipWs rem = [] then .ok v
      else .error "Unexpected token in JSON"
  | none => .error "Unexpected token in JSON"

/-- JavaScript `x || d` applied to the optional response text: the default is
used when the text is absent or empty (falsy). -/
def jsTextOr (text : Option String) (d : String) : String :=
  match text with
  | none => d
  | some t => if t = "" then d else t

/-- Response handling of `analyzeProductImage` from `geminiService.ts`:
`JSON.parse(response.text || '\x7b\x7d')`, the parsed value returned under an
unchecked cast to `ProductAnalysis`. -/
def analyzeProductImage (text : Option String) : Except String JVal :=
  jsonParse (jsTextOr text "\x7b\x7d")

/-- Response handling of `writeViralScript` from `geminiService.ts`:
`response.text || "Failed to generate script."`; never throws on the
response body. -/
def writeViralScript (text : Option String) : String :=
  jsTextOr text "Failed to generate script."

/-- Response handling of `ideateBRoll` from `geminiService.ts`:
`JSON.parse(response.text || '[]')`, the parsed value returned under an
unchecked cast to `string[]`. -/
def ideateBRollText (text : Option String) : Except String JVal :=
  jsonParse (jsTextOr text "[]")

/-- Is this JSON value a string? -/
def isStr : JVal → Bool
  | .str _ => true
  | _ => false

/-- Is this JSON value an array of strings? -/
def isStrArr : JVal → Bool
  | .arr xs => xs.all isStr
  | _ => false

/-- Does this JSON value have the shape the `analyzeProductImage` response
schema requires of a `ProductAnalysis`: an object with string fields
`productName`, `productType`, `targetAudience` and string-array fields
`materials`, `primaryColors`? -/
def isProductAnalysisJson : JVal → Bool
  | .obj fields =>
      (match fields.lookup "productName" with
        | some v => isStr v | none => false) &&
      (match fields.lookup "productType" with
        | some v => isStr v | none => false) &&
      (match fields.lookup "materials" with
        | some v => isStrArr v | none => false) &&
      (match fields.lookup "primaryColors" with
        | some v => isStrArr v | none => false) &&
      (match fields.lookup "targetAudience" with
        | some v => isStr v | none => false)
  | _ => false

/-! ### Sample data used by concrete witnesses -/

/-- A concrete analysis value for witnesses. -/
def sampleAnalysis : ProductAnalysis :=
  { productName := "Ceramic Mug", productType := "mug"
    materials := ["ceramic"], primaryColors := ["red"]
    targetAudience := "adults" }

/-- A mid-session state: image uploaded, analysis stored, two assets
generated. -/
def sampleState : AppState :=
  { initialState with
      originalImage := some "data:orig"
      analysis := some sampleAnalysis
      credits := 2
      assets := { initialAssets with
                    originalImage := some "data:orig"
                    lifestyleImage := some "data:life"
                    tiktokScript := some "script" } }

/-! ### Theorems -/

/-- C2: on a successful analysis exactly the returned result is stored as the
current analysis and the credits counter becomes `max 0 (credits - 1)`; on a
failed analysis both the credits counter and the stored analysis are
unchanged. -/
theorem handleAnalysis_spec (s : AppState) (r : ProductAnalysis) (e : String) :
    (handleAnalysis (.ok r) s).analysis = some r ∧
    (handleAnalysis (.ok r) s).credits = max 0 (s.credits - 1) ∧
    (handleAnalysis (.error e) s).credits = s.credits ∧
    (handleAnalysis (.error e) s).analysis = s.analysis :=
  ⟨rfl, rfl, rfl, rfl⟩

/-- C7 counterexample: in a session that used one credit (3 → 2), the "New
Campaign" handler leaves the credits counter at 2 instead of resetting it to
the fresh-session default 3, so not every entity of the data model is reset.
-/
theorem handleNewCampaign_keeps_credits :
    (handleNewCampaign (handleAnalysis (.ok sampleAnalysis)
        { initialState with originalImage := some "data:orig" })).credits = 2 ∧
    initialState.credits = 3 :=
  ⟨rfl, rfl⟩

/-- C7 (amended): the "New Campaign" handler resets the uploaded image, the
analysis result and every `CreativeAssets` slot to null, but leaves the
credits counter (and the other UI fields) untouched. -/
theorem handleNewCampaign_spec (s : AppState) :
    (handleNewCampaign s).originalImage = none ∧
    (handleNewCampaign s).analysis = none ∧
    (handleNewCampaign s).assets = initialAssets ∧
    (handleNewCampaign s).credits = s.credits ∧
    (handleNewCampaign s).showUpgradeModal = s.showUpgradeModal :=
  ⟨rfl, rfl, rfl, rfl, rfl⟩

/-- C8: when the authorization check reports no key selected,
`onGenerateVideo` opens the upgrade modal, does not invoke
`generateProductVideo` (second component `false`), and leaves the loading
flags — in particular `generatingVideo` — untouched. -/
theorem onGenerateVideo_noKey (s : AppState) (outcome : Except String String) :
    (onGenerateVideo false outcome s).1.showUpgradeModal = true ∧
    (onGenerateVideo false outcome s).2 = false ∧
    (onGenerateVideo false outcome s).1.loading = s.loading ∧
    (onGenerateVideo false outcome s).1.assets = s.assets :=
  ⟨rfl, rfl, rfl, rfl⟩

/-- C3: each asset-generating action writes only its own `CreativeAssets`
slot — for every outcome the other slots are unchanged — and a failed action
leaves the whole `CreativeAssets` record (so every already-populated slot)
unchanged. -/
theorem assets_frame (s : AppState) (hasKey : Bool)
    (outI outS : Except String String) (outB : Except String (List String))
    (outV : Except String String) :
    ((onGenerateImage outI s).assets.originalImage = s.assets.originalImage ∧
     (onGenerateImage outI s).assets.tiktokScript = s.assets.tiktokScript ∧
     (onGenerateImage outI s).assets.bRollConcepts = s.assets.bRollConcepts ∧
     (onGenerateImage outI s).assets.productVideoUrl = s.assets.productVideoUrl ∧
     (∀ e, outI = .error e → (onGenerateImage outI s).assets = s.assets)) ∧
    ((onWriteScript outS s).assets.originalImage = s.assets.originalImage ∧
     (onWriteScript outS s).assets.lifestyleImage = s.assets.lifestyleImage ∧
     (onWriteScript outS s).assets.bRollConcepts = s.assets.bRollConcepts ∧
     (onWriteScript outS s).assets.productVideoUrl = s.assets.productVideoUrl ∧
     (∀ e, outS = .error e → (onWriteScript outS s).assets = s.assets)) ∧
    ((onIdeateBRoll outB s).assets.originalImage = s.assets.originalImage ∧
     (onIdeateBRoll outB s).assets.lifestyleImage = s.assets.lifestyleImage ∧
     (onIdeateBRoll outB s).assets.tiktokScript = s.assets.tiktokScript ∧
     (onIdeateBRoll outB s).assets.productVideoUrl = s.assets.productVideoUrl ∧
     (∀ e, outB = .error e → (onIdeateBRoll outB s).assets = s.assets)) ∧
    (((onGenerateVideo hasKey outV s).1.assets.originalImage
        = s.assets.originalImage ∧
      (onGenerateVideo hasKey outV s).1.assets.lifestyleImage
        = s.assets.lifestyleImage ∧
      (onGenerateVideo hasKey outV s).1.assets.tiktokScript
        = s.assets.tiktokScript ∧
      (onGenerateVideo hasKey outV s).1.assets.bRollConcepts
        = s.assets.bRollConcepts) ∧
     (∀ e, outV = .error e →
        (onGenerateVideo hasKey outV s).1.assets = s.assets)) := by
  refine ⟨⟨?_, ?_, ?_, ?_, ?_⟩, ⟨?_, ?_, ?_, ?_, ?_⟩,
          ⟨?_, ?_, ?_, ?_, ?_⟩, ⟨?_, ?_, ?_, ?_⟩, ?_⟩
  case _ =>
    cases outI <;> (simp only [onGenerateImage]; split <;> rfl)
  case _ =>
    cases outI <;> (simp only [onGenerateImage]; split <;> rfl)
  case _ =>
    cases outI <;> (simp only [onGenerateImage]; split <;> rfl)
  case _ =>
    cases outI <;> (simp only [onGenerateImage]; split <;> rfl)
  case _ =>
    intro e he; subst he
    simp only [onGenerateImage]; split <;> rfl
  case _ =>
    cases outS <;> (simp only [onWriteScript]; split <;> rfl)
  case _ =>
    cases outS <;> (simp only [onWriteScript]; split <;> rfl)
  case _ =>
    cases outS <;> (simp only [onWriteScript]; split <;> rfl)
  case _ =>
    cases outS <;> (simp only [onWriteScript]; split <;> rfl)
  case _ =>
    intro e he; subst he
    simp only [onWriteScript]; split <;> rfl
  case _ =>
    cases outB <;> (simp only [onIdeateBRoll]; split <;> rfl)
  case _ =>
    cases outB <;> (simp only [onIdeateBRoll]; split <;> rfl)
  case _ =>
    cases outB <;> (simp only [onIdeateBRoll]; split <;> rfl)
  case _ =>
    cases outB <;> (simp only [onIdeateBRoll]; split <;> rfl)
  case _ =>
    intro e he; subst he
    simp only [onIdeateBRoll]; split <;> rfl
  case _ =>
    cases outV with
    | ok u =>
        simp only [onGenerateVideo]; split
        · rfl
        split <;> rfl
    | error msg =>
        simp only [onGenerateVideo]; split
        · rfl
        split
        · rfl
        dsimp only; split <;> rfl
  case _ =>
    cases outV with
    | ok u =>
        simp only [onGenerateVideo]; split
        · rfl
        split <;> rfl
    | error msg =>
        simp only [onGenerateVideo]; split
        · rfl
        split
        · rfl
        dsimp only; split <;> rfl
  case _ =>
    cases outV with
    | ok u =>
        simp only [onGenerateVideo]; split
        · rfl
        split <;> rfl
    | error msg =>
        simp only [onGenerateVideo]; split
        · rfl
        split
        · rfl
        dsimp only; split <;> rfl
  case _ =>
    cases outV with
    | ok u =>
        simp only [onGenerateVideo]; split
        · rfl
        split <;> rfl
    | error msg =>
        simp only [onGenerateVideo]; split
        · rfl
        split
        · rfl
        dsimp only; split <;> rfl
  case _ =>
    intro e he; subst he
    simp only [onGenerateVideo]; split
    · rfl
    split
    · rfl
    dsimp only; split <;> rfl

/-- C3 witness: from a mid-session state with a lifestyle image and script
already generated, a failed video generation leaves the whole asset record
unchanged, and a successful B-roll generation leaves the script slot
unchanged. -/
theorem assets_frame_witness :
    (onGenerateVideo true (.error "boom") sampleState).1.assets
      = sampleState.assets ∧
    (onIdeateBRoll (.ok ["idea"]) sampleState).assets.tiktokScript
      = some "script" := by
  have h := assets_frame sampleState true (.ok "i") (.ok "s") (.ok ["idea"])
    (.error "boom")
  exact ⟨h.2.2.2.2 "boom" rfl, (h.2.2.1.2.2.1).trans rfl⟩

/-- The lifestyle-image extractor errors exactly when no part carries inline
image data. -/
theorem generateLifestyleImage_error_iff (parts : List Part) :
    generateLifestyleImage parts = .error "No image generated" ↔
      ∀ p ∈ parts, p.inlineData = none := by
  induction parts with
  | nil => simp [generateLifestyleImage]
  | cons p ps ih =>
    cases hp : p.inlineData with
    | none => simp [generateLifestyleImage, hp, ih]
    | some d =>
      constructor
      · intro h; simp [generateLifestyleImage, hp] at h
      · intro h
        exact absurd (h p (List.mem_cons_self p ps)) (by simp [hp])

/-- The lifestyle-image extractor returns the data URL of the first part
carrying inline data. -/
theorem generateLifestyleImage_first (d : String) :
    ∀ pre : List Part, ∀ post : List Part,
      (∀ p ∈ pre, p.inlineData = none) →
      generateLifestyleImage
          (pre ++ ({ inlineData := some d } : Part) :: post) =
        .ok ("data:image/png;base64," ++ d) := by
  intro pre
  induction pre with
  | nil => intro post _; simp [generateLifestyleImage]
  | cons q qs ih =>
    intro post h
    have hq : q.inlineData = none := h q (by simp)
    simp only [List.cons_append, generateLifestyleImage, hq]
    exact ih post fun p hp => h p (by simp [hp])

/-- C4: `generateLifestyleImage` fails with the generic `"No image
generated"` error exactly when the provider response has no inline-data part;
when a part carries inline data it returns the data URL built from the first
such part; and on the failure the caller leaves the `lifestyleImage` slot
unchanged and surfaces the failure toast. -/
theorem generateLifestyleImage_spec (parts : List Part) (s : AppState)
    (e : String) :
    (generateLifestyleImage parts = .error "No image generated" ↔
      ∀ p ∈ parts, p.inlineData = none) ∧
    (∀ pre post : List Part, ∀ d : String,
      parts = pre ++ ({ inlineData := some d } : Part) :: post →
      (∀ p ∈ pre, p.inlineData = none) →
      generateLifestyleImage parts = .ok ("data:image/png;base64," ++ d)) ∧
    (s.originalImage ≠ none → s.analysis ≠ none →
      (onGenerateImage (.error e) s).assets.lifestyleImage
        = s.assets.lifestyleImage ∧
      (onGenerateImage (.error e) s).toastMessage
        = some "Failed to generate image.") := by
  refine ⟨generateLifestyleImage_error_iff parts, ?_, ?_⟩
  · intro pre post d hparts hpre
    subst hparts
    exact generateLifestyleImage_first d pre post hpre
  · intro hI hA
    have hg : ¬(s.originalImage = none ∨ s.analysis = none) := by
      rintro (h | h)
      · exact hI h
      · exact hA h
    constructor <;> simp [onGenerateImage, hg]

/-- C4 witness: the theorem instantiated at a one-part response with no
inline data and at the mid-session state. -/
theorem generateLifestyleImage_spec_witness :
    generateLifestyleImage [{ inlineData := none }]
      = .error "No image generated" ∧
    (onGenerateImage (.error "No image generated") sampleState).assets.lifestyleImage
      = some "data:life" ∧
    (onGenerateImage (.error "No image generated") sampleState).toastMessage
      = some "Failed to generate image." := by
  have h := generateLifestyleImage_spec [{ inlineData := none }] sampleState
    "No image generated"
  have h3 := h.2.2 (by decide) (by decide)
  exact ⟨h.1.mpr (by intro p hp; simp at hp; simp [hp]), h3.1.trans rfl, h3.2⟩

/-- The polling loop started `j` cycles before the first done operation
runs exactly those `j` cycles, for any fuel beyond `j`. -/
theorem pollLoop_shift (ops : Nat → VideoOperation) :
    ∀ j k m fuel : Nat,
      (∀ i, i < j → (ops (k + i)).done = false) →
      (ops (k + j)).done = true → j < fuel →
      pollLoop ops k m fuel = some (k + j, pollEvents m j) := by
  intro j
  induction j with
  | zero =>
    intro k m fuel _ hd hf
    obtain ⟨f, rfl⟩ : ∃ f, fuel = f + 1 := ⟨fuel - 1, by omega⟩
    rw [Nat.add_zero] at hd
    simp [pollLoop, hd, pollEvents]
  | succ j ih =>
    intro k m fuel h0 hd hf
    obtain ⟨f, rfl⟩ : ∃ f, fuel = f + 1 := ⟨fuel - 1, by omega⟩
    have hk : (ops k).done = false := by
      have := h0 0 (Nat.succ_pos j)
      rwa [Nat.add_zero] at this
    have ih' := ih (k + 1) (m + 1) f
      (fun i hi => by
        have := h0 (i + 1) (by omega)
        rwa [show k + (i + 1) = k + 1 + i by omega] at this)
      (by rwa [show k + 1 + j = k + (j + 1) by omega])
      (by omega)
    simp only [pollLoop, hk, Bool.false_eq_true, if_false, ih']
    simp only [pollEvents]
    rw [show k + 1 + j = k + (j + 1) by omega]

/-- Each polling cycle re-queries the status exactly once. -/
theorem pollEvents_count_query (m j : Nat) :
    (pollEvents m j).count VideoEvent.queryOperation = j := by
  induction j generalizing m with
  | zero => rfl
  | succ j ih => simp [pollEvents, cycleEvents, ih]

/-- Each polling cycle suspends exactly once, for the fixed 8000 ms. -/
theorem pollEvents_count_sleep (m j : Nat) :
    (pollEvents m j).count (VideoEvent.sleep 8000) = j := by
  induction j generalizing m with
  | zero => rfl
  | succ j ih => simp [pollEvents, cycleEvents, ih]

/-- The events of `j` cycles are the concatenation of the per-cycle event
triples, message index advancing by one per cycle. -/
theorem pollEvents_eq_join (m j : Nat) :
    pollEvents m j = ((List.range j).map fun i => cycleEvents (m + i)).flatten := by
  induction j generalizing m with
  | zero => rfl
  | succ j ih =>
    rw [List.range_succ_eq_map]
    simp only [pollEvents, List.map_cons, List.flatten_cons, List.map_map,
      Nat.add_zero, ih]
    congr 1
    congr 1
    refine List.map_congr_left fun i _ => ?_
    simp only [Function.comp_apply]
    congr 1
    omega

/-- C1: when the provider first reports the video operation done at the
`n`-th status query, the polling loop terminates after exactly `n` cycles —
for every recursion bound beyond `n`, so the loop has no iteration cap or
timeout of its own — and each cycle emits exactly one rotating status update
(`loadingMessages[i % 6]` on the `i`-th cycle), one fixed 8000 ms
suspension, and one status re-query, in that order. -/
theorem generateProductVideo_polling (ops : Nat → VideoOperation)
    (n fuel : Nat) (hbefore : ∀ k, k < n → (ops k).done = false)
    (hdone : (ops n).done = true) (hfuel : n < fuel) :
    pollLoop ops 0 0 fuel = some (n, pollEvents 0 n) ∧
    pollEvents 0 n = ((List.range n).map cycleEvents).flatten ∧
    (pollEvents 0 n).count VideoEvent.queryOperation = n ∧
    (pollEvents 0 n).count (VideoEvent.sleep 8000) = n := by
  refine ⟨?_, ?_, pollEvents_count_query 0 n, pollEvents_count_sleep 0 n⟩
  · have h := pollLoop_shift ops n 0 0 fuel
      (fun i hi => by simpa using hbefore i hi) (by simpa using hdone) hfuel
    simpa using h
  · have h := pollEvents_eq_join 0 n
    simpa using h

/-- C1 witness: a provider that reports done at the second re-query makes
the loop run exactly two cycles. -/
theorem generateProductVideo_polling_witness :
    pollLoop (fun k => { done := decide (2 ≤ k), uri := none }) 0 0 9
      = some (2, pollEvents 0 2) := by
  have h := generateProductVideo_polling
    (fun k => { done := decide (2 ≤ k), uri := none }) 2 9
    (by intro k hk; simp only [decide_eq_false_iff_not]; omega)
    (by simp) (by omega)
  exact h.1

/-- C9: every thrown network call — the submission, a polling query, the
final fetch — propagates out of `generateProductVideo`; after the operation
completes, a missing (or empty, JavaScript-falsy) result URI yields the
single generic `"Video generation failed - no URI"` error with no fetch;
otherwise exactly one further fetch of `uri&key=API_KEY` is performed and
the object URL of its blob is returned. -/
theorem generateProductVideo_errors (apiKey : String)
    (submit : Except String VideoOperation)
    (queryRes : Nat → Except String VideoOperation)
    (fetchRes : String → Except String String) (objectURL : String → String)
    (fuel : Nat) (op0 opF : VideoOperation) (e u blob : String) :
    (generateProductVideoRun apiKey (.error e) queryRes fetchRes objectURL
        fuel = some (.error e, [])) ∧
    (submit = .ok op0 → pollLoopE queryRes op0 0 fuel = some (.error e) →
      generateProductVideoRun apiKey submit queryRes fetchRes objectURL fuel
        = some (.error e, [])) ∧
    (submit = .ok op0 → pollLoopE queryRes op0 0 fuel = some (.ok opF) →
      (opF.uri = none ∨ opF.uri = some "") →
      generateProductVideoRun apiKey submit queryRes fetchRes objectURL fuel
        = some (.error "Video generation failed - no URI", [])) ∧
    (submit = .ok op0 → pollLoopE queryRes op0 0 fuel = some (.ok opF) →
      opF.uri = some u → u ≠ "" →
      fetchRes (u ++ "&key=" ++ apiKey) = .error e →
      generateProductVideoRun apiKey submit queryRes fetchRes objectURL fuel
        = some (.error e, [u ++ "&key=" ++ apiKey])) ∧
    (submit = .ok op0 → pollLoopE queryRes op0 0 fuel = some (.ok opF) →
      opF.uri = some u → u ≠ "" →
      fetchRes (u ++ "&key=" ++ apiKey) = .ok blob →
      generateProductVideoRun apiKey submit queryRes fetchRes objectURL fuel
        = some (.ok (objectURL blob), [u ++ "&key=" ++ apiKey])) := by
  refine ⟨rfl, ?_, ?_, ?_, ?_⟩
  · intro hs hp
    subst hs
    simp [generateProductVideoRun, hp]
  · intro hs hp huri
    subst hs
    rcases huri with h | h <;>
      simp [generateProductVideoRun, hp, finishVideo, h]
  · intro hs hp huri hne hf
    subst hs
    simp [generateProductVideoRun, hp, finishVideo, huri, hne, hf]
  · intro hs hp huri hne hf
    subst hs
    simp [generateProductVideoRun, hp, finishVideo, huri, hne, hf]

/-- C9 witness: submission pending, the first re-query done with a URI, the
fetch succeeding — the success clause of the theorem at these inputs. -/
theorem generateProductVideo_errors_witness :
    generateProductVideoRun "KEY" (.ok { done := false, uri := none })
      (fun _ => .ok { done := true, uri := some "http://v" })
      (fun _ => .ok "BLOB") (fun b => "blob:" ++ b) 3
      = some (.ok "blob:BLOB", ["http://v&key=KEY"]) := by
  have h := (generateProductVideo_errors "KEY"
    (.ok { done := false, uri := none })
    (fun _ => .ok { done := true, uri := some "http://v" })
    (fun _ => .ok "BLOB") (fun b => "blob:" ++ b) 3
    { done := false, uri := none } { done := true, uri := some "http://v" }
    "e" "http://v" "BLOB").2.2.2.2
  exact h rfl rfl rfl (by decide) rfl

/-- C5 counterexample: a malformed (non-JSON) response body makes
`ideateBRoll` propagate a parse error (the `JSON.parse` SyntaxError) rather
than surface an empty default. -/
theorem ideateBRoll_malformed_throws :
    ideateBRollText (some "oops") = .error "Unexpected token in JSON" := rfl

/-- C5 (amended): the script writer returns free text and never throws on
the response body (the provider text, or the fixed fallback when the text is
absent or empty); the B-roll ideator surfaces the empty default only when
the text is absent or empty and returns the parsed list of ideas — its size
taken from the response, e.g. three for a three-element array — for a
well-formed JSON body, while a malformed body propagates a parse error. -/
theorem script_bRoll_response_handling (t : String) :
    writeViralScript none = "Failed to generate script." ∧
    writeViralScript (some "") = "Failed to generate script." ∧
    (t ≠ "" → writeViralScript (some t) = t) ∧
    ideateBRollText none = .ok (.arr []) ∧
    ideateBRollText (some "") = .ok (.arr []) ∧
    ideateBRollText (some "[\"a\", \"b\", \"c\"]")
      = .ok (.arr [.str "a", .str "b", .str "c"]) := by
  refine ⟨rfl, rfl, ?_, rfl, rfl, rfl⟩
  intro ht
  simp [writeViralScript, jsTextOr, ht]

/-- C5 witness: the amended theorem applied at a non-empty script text. -/
theorem script_bRoll_response_handling_witness :
    writeViralScript (some "Pov: obsessed") = "Pov: obsessed" :=
  (script_bRoll_response_handling "Pov: obsessed").2.2.1 (by decide)

/-- C6 counterexample: with the response text absent, `analyzeProductImage`
resolves successfully with the empty JSON object — a value carrying none of
the `ProductAnalysis` fields — instead of a `ProductAnalysis` or an error.
-/
theorem analyzeProductImage_empty_resolves :
    analyzeProductImage none = .ok (.obj []) ∧
    isProductAnalysisJson (.obj []) = false :=
  ⟨rfl, rfl⟩

set_option maxRecDepth 4000 in
/-- C6 (amended): `analyzeProductImage` returns the JSON parse of the
response text: a malformed body fails with a parse error and a
schema-conforming body resolves to a `ProductAnalysis`-shaped object, but an
absent response text resolves successfully with the empty object, which is
not a populated `ProductAnalysis`. -/
theorem analyzeProductImage_response_handling :
    analyzeProductImage none = .ok (.obj []) ∧
    isProductAnalysisJson (.obj []) = false ∧
    analyzeProductImage (some "garbage")
      = .error "Unexpected token in JSON" ∧
    analyzeProductImage (some "\x7b\"productName\":\"Ceramic Mug\",\"productType\":\"mug\",\"materials\":[\"ceramic\"],\"primaryColors\":[\"red\"],\"targetAudience\":\"adults\"\x7d")
      = .ok (.obj [("productName", .str "Ceramic Mug"),
                   ("productType", .str "mug"),
                   ("materials", .arr [.str "ceramic"]),
                   ("primaryColors", .arr [.str "red"]),
                   ("targetAudience", .str "adults")]) ∧
    isProductAnalysisJson
      (.obj [("productName", .str "Ceramic Mug"),
             ("productType", .str "mug"),
             ("materials", .arr [.str "ceramic"]),
             ("primaryColors", .arr [.str "red"]),
             ("targetAudience", .str "adults")]) = true :=
  ⟨rfl, rfl, rfl, rfl, rfl⟩

/-- Every shell action leaves the credits unchanged, applies the clamped
decrement, or sets them to 99. -/
theorem step_credits_cases (a : Action) (s : AppState) :
    (step a s).credits = s.credits ∨
    (step a s).credits = max 0 (s.credits - 1) ∨
    (step a s).credits = 99 := by
  cases a with
  | fileUpload img outcome =>
    simp only [step, handleFileUpload]
    split
    · exact Or.inl rfl
    · cases outcome with
      | error e => exact Or.inl rfl
      | ok r => exact Or.inr (Or.inl rfl)
  | sampleLoad fetched outcome =>
    simp only [step, handleSampleLoad]
    split
    · exact Or.inl rfl
    · cases fetched with
      | none => exact Or.inl rfl
      | some img =>
        cases outcome with
        | error e => exact Or.inl rfl
        | ok r => exact Or.inr (Or.inl rfl)
  | analyze outcome =>
    cases outcome with
    | error e => exact Or.inl rfl
    | ok r => exact Or.inr (Or.inl rfl)
  | genVideo hasKey outcome =>
    refine Or.inl ?_
    cases outcome with
    | error msg =>
      simp only [step, onGenerateVideo]; split
      · rfl
      split
      · rfl
      dsimp only; split <;> rfl
    | ok u =>
      simp only [step, onGenerateVideo]; split
      · rfl
      split <;> rfl
  | upgrade hasAistudio =>
    simp only [step, handleUpgrade]
    split
    · exact Or.inr (Or.inr rfl)
    · exact Or.inl rfl
  | genImage outcome =>
    refine Or.inl ?_
    cases outcome <;> (simp only [step, onGenerateImage]; split <;> rfl)
  | writeScript outcome =>
    refine Or.inl ?_
    cases outcome <;> (simp only [step, onWriteScript]; split <;> rfl)
  | ideateBRoll outcome =>
    refine Or.inl ?_
    cases outcome <;> (simp only [step, onIdeateBRoll]; split <;> rfl)
  | copy => exact Or.inl rfl
  | newCampaign => exact Or.inl rfl
  | toastClose => exact Or.inl rfl
  | modalClose => exact Or.inl rfl

/-- C10: credits start at 3, every shell action either keeps them, applies
`max 0 (credits - 1)` (successful analysis) or sets them to 99 (upgrade), so
`0 ≤ credits` is an invariant of every reachable state. -/
theorem credits_invariant :
    initialState.credits = 3 ∧
    (∀ a s, (step a s).credits = s.credits ∨
            (step a s).credits = max 0 (s.credits - 1) ∨
            (step a s).credits = 99) ∧
    ∀ s, Reachable s → 0 ≤ s.credits := by
  refine ⟨rfl, step_credits_cases, ?_⟩
  intro s h
  induction h with
  | init => norm_num [initialState]
  | step a hs ih =>
    rcases step_credits_cases a _ with h1 | h1 | h1 <;> rw [h1]
    · exact ih
    · exact le_max_left 0 _
    · norm_num

/-- C10 witness: the invariant evaluated at the initial state. -/
theorem credits_invariant_witness : 0 ≤ initialState.credits :=
  credits_invariant.2.2 initialState Reachable.init

end Campaign
